import Mathlib

/-!
Shallow embedding of the muxysql MySQL wire-protocol core
(src/mysql/packet.rs and src/connection.rs).

Bytes are modelled as `List Nat` (each element intended below 256; theorems
add that bound where it matters). Rust text values (String) are kept as their
raw bytes. Functions that can panic in Rust (failed `assert_eq!`, slice index
out of range) return `Option`, with `none` modelling the panicking run.

The crate modules mysql/types.rs (the primitive field decoders),
mysql/accumulator.rs (CapabilityFlags) and mysql/command.rs (Command), and
the `Phase` enum that packet.rs imports, are not among the provided sources;
those definitions are modelled from the spec and say so in their doc comments.
Everything else is translated from the Rust source.
-/

namespace MuxySQL

/-- Little-endian value of a byte list, least significant byte first. -/
def leValue : List Nat → Nat
  | [] => 0
  | b :: rest => b + 256 * leValue rest

/-- Modelled from the spec: packet.rs imports `Phase` from connection.rs, but the
provided connection.rs does not define it. The spec's glossary describes the
phase as pre-auth, post-auth, or awaiting a command reply, and the classifier
in packet.rs compares the phase against `Phase::Command`; only that comparison
matters to the embedded code. -/
inductive Phase
  | Initiated
  | AuthDone
  | PendingResponse
  | Command
  deriving DecidableEq

/-- PacketType from packet.rs. -/
inductive PacketType
  | Other
  | Command
  | Ok
  | Eof
  | Error
  deriving DecidableEq

/-- PacketHeader from packet.rs: `size` is a usize (body length, 24-bit on the
wire), `seq` a u8. -/
structure PacketHeader where
  size : Nat
  seq : Nat
  deriving DecidableEq

/-- PacketHeader::from_bytes: bytes 0..3 are copied into a zeroed 8-byte buffer
and read as a little-endian usize, byte 3 is the sequence number. The Rust
function takes exactly 4 bytes; callers below only pass buffers of length at
least 4. -/
def PacketHeader.from_bytes (bytes : List Nat) : PacketHeader :=
  { size := leValue (bytes.take 3), seq := bytes.getD 3 0 }

/-- PacketHeader::to_bytes: the four low little-endian bytes of `size`, after
which byte 3 is overwritten by `seq` (so bits 24..31 of `size` are dropped). -/
def PacketHeader.to_bytes (h : PacketHeader) : List Nat :=
  [h.size % 256, h.size / 256 % 256, h.size / 65536 % 256, h.seq]

/-- get_packet_type from packet.rs. The Rust body indexes `body[0]`; the test
`body.len() <= 9 && body[0] == 0xfe` evaluates `body[0]` whenever the length is
at most 9, so an empty body reaches the index and panics (`none` here). For a
non-empty body the function is total and follows the first matching rule. -/
def get_packet_type (body : List Nat) (phase : Phase) : Option PacketType :=
  if 7 ≤ body.length ∧ body.headD 0 = 0x00 then
    some PacketType.Ok
  else
    match body with
    | [] => none
    | b0 :: _ =>
      if body.length ≤ 9 ∧ b0 = 0xfe then some PacketType.Eof
      else if b0 = 0xff then some PacketType.Error
      else if phase = Phase.Command then some PacketType.Command
      else some PacketType.Other

/-- Packet from packet.rs: header, owned body bytes, and the type computed at
construction. -/
structure Packet where
  header : PacketHeader
  body : List Nat
  p_type : PacketType
  deriving DecidableEq

/-- The two `return Err(Error {})` sites of Packet::from_bytes, tagged by which
length check failed. The Rust error type (`std::fmt::Error`) is a unit carrying
no data; the tags record the distinct return sites the spec names. -/
inductive FramingError
  | IncompleteHeader
  | IncompleteBody
  deriving DecidableEq

/-- Packet::from_bytes. The outer `Option` models the panic inside
get_packet_type (an empty body indexes out of bounds); `Except` carries the two
error returns. The body is `bytes[4 .. 4 + header.size]`, so trailing bytes are
left unconsumed. -/
def Packet.from_bytes (bytes : List Nat) (phase : Phase) :
    Option (Except FramingError Packet) :=
  if bytes.length < 4 then
    some (Except.error FramingError.IncompleteHeader)
  else
    let header := PacketHeader.from_bytes bytes
    if bytes.length < 4 + header.size then
      some (Except.error FramingError.IncompleteBody)
    else
      let body := (bytes.drop 4).take header.size
      match get_packet_type body phase with
      | none => none
      | some p_type => some (Except.ok { header := header, body := body, p_type := p_type })

/-- Packet::to_bytes: header bytes followed by body bytes. -/
def Packet.to_bytes (p : Packet) : List Nat :=
  p.header.to_bytes ++ p.body

/-- Modelled from the spec: the CapabilityFlags enum lives in
mysql/accumulator.rs, which is not among the provided sources; the spec fixes
the named bits to the published MySQL protocol constants. -/
def ClientProtocol41 : Nat := 0x200

/-- Modelled from the spec: CLIENT_TRANSACTIONS, see `ClientProtocol41`. -/
def ClientTransactions : Nat := 0x2000

/-- Modelled from the spec: CLIENT_SESSION_TRACK, see `ClientProtocol41`. -/
def ClientSessionTrack : Nat := 0x800000

/-- Modelled from the spec: IntFixedLen (FixedLengthInteger(n)) from
mysql/types.rs, which is not among the provided sources: reads n bytes
little-endian, consumes n, and fails TruncatedField (here `none`) rather than
read past the buffer. Returns (value, bytes consumed). -/
def IntFixedLen.from_bytes (buffer : List Nat) (n : Nat) : Option (Nat × Nat) :=
  if buffer.length < n then none
  else some (leValue (buffer.take n), n)

/-- Result of a length-encoded-integer read: the numeric value, whether the
NULL sentinel was read (the spec gives the sentinel no numeric meaning; the
model stores 0 for it), and the bytes consumed. -/
structure LenEncResult where
  result : Nat
  isNull : Bool
  offset_increment : Nat
  deriving DecidableEq

/-- Modelled from the spec: IntLenEnc (LengthEncodedInteger) from
mysql/types.rs, which is not among the provided sources. First byte b:
b < 0xFB the value itself consuming 1; 0xFB the NULL sentinel consuming 1;
0xFC the next 2 bytes little-endian consuming 3; 0xFD the next 3 consuming 4;
0xFE the next 8 consuming 9. A truncated buffer fails (`none`); 0xFF is not a
defined leading byte for this encoding. -/
def IntLenEnc.from_bytes (buffer : List Nat) : Option LenEncResult :=
  match buffer with
  | [] => none
  | b :: rest =>
    if b < 0xFB then some { result := b, isNull := false, offset_increment := 1 }
    else if b = 0xFB then some { result := 0, isNull := true, offset_increment := 1 }
    else if b = 0xFC then
      if rest.length < 2 then none
      else some { result := leValue (rest.take 2), isNull := false, offset_increment := 3 }
    else if b = 0xFD then
      if rest.length < 3 then none
      else some { result := leValue (rest.take 3), isNull := false, offset_increment := 4 }
    else if b = 0xFE then
      if rest.length < 8 then none
      else some { result := leValue (rest.take 8), isNull := false, offset_increment := 9 }
    else none

/-- Modelled from the spec: StringFixedLen (FixedLengthString(n)) from
mysql/types.rs, which is not among the provided sources: reads n bytes as text
(kept as raw bytes here), consumes n; a shorter buffer fails. Returns
(text bytes, bytes consumed). -/
def StringFixedLen.from_bytes (buffer : List Nat) (n : Nat) : Option (List Nat × Nat) :=
  if buffer.length < n then none
  else some (buffer.take n, n)

/-- Modelled from the spec: StringEOFEnc (EOFTerminatedString) from
mysql/types.rs, which is not among the provided sources: consumes the entire
remainder of the buffer as text. Returns (text bytes, bytes consumed). -/
def StringEOFEnc.from_bytes (buffer : List Nat) : List Nat × Nat :=
  (buffer, buffer.length)

/-- SQLState from packet.rs; text kept as raw bytes. -/
structure SQLState where
  state_marker : List Nat
  state : List Nat
  deriving DecidableEq

/-- ErrorData from packet.rs; error_code is a u16, error_message kept as raw
bytes. -/
structure ErrorData where
  error_code : Nat
  sql_state : Option SQLState
  error_message : List Nat
  deriving DecidableEq

/-- get_sql_state from packet.rs, with the connection's negotiated
`client_flag` bitmask passed explicitly (the Rust reads it through
`connection.get_handshake_response()`). Returns `some none` when
ClientProtocol41 is unset (the early return, before any slicing); otherwise
reads a 1-byte marker at `offset` and a 5-byte state after it. The outer
`Option` models panics: an out-of-range slice `&packet.body[k..]`, a truncated
fixed-length read, or the `assert_eq!(state_offset - offset, 6)`. -/
def get_sql_state (body : List Nat) (client_flag : Nat) (offset : Nat) :
    Option (Option SQLState) :=
  if client_flag &&& ClientProtocol41 = 0 then
    some none
  else if body.length < offset then none
  else
    match StringFixedLen.from_bytes (body.drop offset) 1 with
    | none => none
    | some (marker, inc1) =>
      let state_offset := offset + inc1
      if body.length < state_offset then none
      else
        match StringFixedLen.from_bytes (body.drop state_offset) 5 with
        | none => none
        | some (st, inc2) =>
          if state_offset + inc2 - offset = 6 then
            some (some { state_marker := marker, state := st })
          else none

/-- ErrorData::from_packet, with the connection's `client_flag` passed
explicitly. `none` models a panicking run (a failed `assert_eq!` or an
out-of-range slice). Two features of the Rust are kept faithfully: the error
code is decoded from the start of the body (the call passes `body`, not
`&body[offset..]`, so it reads the 0xFF marker byte and the first code byte),
and the cursor advances 6 bytes for the SQL state even when ClientProtocol41
is unset and nothing was decoded. -/
def ErrorData.from_packet (packet : Packet) (client_flag : Nat) : Option ErrorData :=
  if packet.p_type ≠ PacketType.Error then none
  else
    let body := packet.body
    match IntFixedLen.from_bytes body 2 with
    | none => none
    | some (code, inc) =>
      let offset := 1 + inc
      match get_sql_state body client_flag offset with
      | none => none
      | some sql_state =>
        let offset2 := offset + 6
        if body.length < offset2 then none
        else
          let msg := StringEOFEnc.from_bytes (body.drop offset2)
          let offset3 := offset2 + msg.2
          if offset3 = body.length then
            some { error_code := code % 65536, sql_state := sql_state,
                   error_message := msg.1 }
          else none

/-- SessionState from packet.rs; text kept as raw bytes. -/
structure SessionState where
  type_ : Nat
  data : List Nat
  deriving DecidableEq

/-- OkData from packet.rs: affected_rows and last_insert_id are u128,
status_flags and warnings optional u16, info optional text,
session_state_info optional SessionState. -/
structure OkData where
  affected_rows : Nat
  last_insert_id : Nat
  status_flags : Option Nat
  warnings : Option Nat
  info : Option (List Nat)
  session_state_info : Option SessionState
  deriving DecidableEq

/-- OkData::from_packet, with the connection's `client_flag` passed explicitly.
`none` models a panicking run (the `assert_eq!` on the packet type, an
out-of-range slice, or a truncated primitive read). After the two
length-encoded integers: under ClientProtocol41 both status_flags and warnings
are read (2 bytes each); otherwise under ClientTransactions only status_flags;
otherwise neither. The ClientSessionTrack block in the Rust is commented out,
so info and session_state_info are always None. -/
def OkData.from_packet (packet : Packet) (client_flag : Nat) : Option OkData :=
  if packet.p_type ≠ PacketType.Ok then none
  else
    let body := packet.body
    if body.length < 1 then none
    else
      match IntLenEnc.from_bytes (body.drop 1) with
      | none => none
      | some r1 =>
        let offset1 := 1 + r1.offset_increment
        if body.length < offset1 then none
        else
          match IntLenEnc.from_bytes (body.drop offset1) with
          | none => none
          | some r2 =>
            let offset2 := offset1 + r2.offset_increment
            if client_flag &&& ClientProtocol41 ≠ 0 then
              if body.length < offset2 then none
              else
                match IntFixedLen.from_bytes (body.drop offset2) 2 with
                | none => none
                | some (sf, i1) =>
                  let offset3 := offset2 + i1
                  if body.length < offset3 then none
                  else
                    match IntFixedLen.from_bytes (body.drop offset3) 2 with
                    | none => none
                    | some (w, _i2) =>
                      some { affected_rows := r1.result, last_insert_id := r2.result,
                             status_flags := some (sf % 65536),
                             warnings := some (w % 65536),
                             info := none, session_state_info := none }
            else if client_flag &&& ClientTransactions ≠ 0 then
              if body.length < offset2 then none
              else
                match IntFixedLen.from_bytes (body.drop offset2) 2 with
                | none => none
                | some (sf, _i1) =>
                  some { affected_rows := r1.result, last_insert_id := r2.result,
                         status_flags := some (sf % 65536), warnings := none,
                         info := none, session_state_info := none }
            else
              some { affected_rows := r1.result, last_insert_id := r2.result,
                     status_flags := none, warnings := none,
                     info := none, session_state_info := none }

/-- State from connection.rs. -/
inductive State
  | Initiated
  | AuthDone
  | PendingResponse
  deriving DecidableEq

/-- Modelled from the spec: Command from mysql/command.rs is not among the
provided sources; the claims only require that a stored command is preserved
unchanged, so it is kept as its raw bytes. -/
structure Command where
  raw : List Nat
  deriving DecidableEq

/-- Connection from connection.rs; the buffer in partial_data is raw bytes. -/
structure Connection where
  state : State
  partial_data : Option (List Nat)
  last_command : Option Command
  deriving DecidableEq

/-- Connection::new. -/
def Connection.new : Connection :=
  { state := State.Initiated, partial_data := none, last_command := none }

/-- Connection::mark_auth_done. -/
def Connection.mark_auth_done (c : Connection) : Connection :=
  { c with state := State.AuthDone }

/-- Connection::unset_partial_data. -/
def Connection.unset_partial_data (c : Connection) : Connection :=
  { c with partial_data := none }

/-- Connection::set_partial_data: copies the slice into a fresh owned buffer
(an exact copy of the bytes). -/
def Connection.set_partial_data (c : Connection) (bytes : List Nat) : Connection :=
  { c with partial_data := some bytes }

/-- The mutating operations the Connection impl block provides (get_state is
read-only and returns a borrow). -/
inductive ConnectionOp
  | markAuthDone
  | unsetPartialData
  | setPartialData (bytes : List Nat)

/-- Running one Connection operation. -/
def ConnectionOp.apply : ConnectionOp → Connection → Connection
  | ConnectionOp.markAuthDone, c => c.mark_auth_done
  | ConnectionOp.unsetPartialData, c => c.unset_partial_data
  | ConnectionOp.setPartialData bytes, c => c.set_partial_data bytes

/-- Helper: on a non-empty body the classifier never panics and follows the
spec's rule order, first match winning. -/
theorem get_packet_type_cons (b0 : Nat) (rest : List Nat) (phase : Phase) :
    get_packet_type (b0 :: rest) phase =
      some (if 7 ≤ (b0 :: rest).length ∧ b0 = 0x00 then PacketType.Ok
        else if (b0 :: rest).length ≤ 9 ∧ b0 = 0xfe then PacketType.Eof
        else if b0 = 0xff then PacketType.Error
        else if phase = Phase.Command then PacketType.Command
        else PacketType.Other) := by
  simp only [get_packet_type, List.headD_cons]
  split_ifs <;> rfl

/-- Helper: a successful length-encoded-integer read needs a non-empty buffer. -/
theorem lenEnc_some_ne_nil {l : List Nat} {r : LenEncResult}
    (h : IntLenEnc.from_bytes l = some r) : l ≠ [] := by
  intro hl
  subst hl
  simp [IntLenEnc.from_bytes] at h

/-- Helper: for a non-empty body the classifier returns some type. -/
theorem get_packet_type_isSome (body : List Nat) (phase : Phase) (h : body ≠ []) :
    ∃ t, get_packet_type body phase = some t := by
  cases body with
  | nil => exact absurd rfl h
  | cons b rest => exact ⟨_, get_packet_type_cons b rest phase⟩

/-- C1. The claim: a buffer framing with an empty body (header.size = 0) fails
InvalidPacket and body[0] is never read. The code has no such guard:
get_packet_type evaluates `body.len() <= 9 && body[0] == 0xfe`, so an empty
body indexes out of bounds and the run panics (modelled as `none`) instead of
returning an InvalidPacket failure. This theorem evaluates the code at the
failing input, the 4-byte buffer whose header declares size 0. -/
theorem frame_empty_body_reads_oob :
    ∀ phase : Phase, Packet.from_bytes [0x00, 0x00, 0x00, 0x00] phase = none := by
  intro phase
  cases phase <;> rfl

/-- C2. For every non-empty body and phase, the packet type is the first
matching rule in order: length ≥ 7 and byte 0 = 0x00 gives Ok; length ≤ 9 and
byte 0 = 0xFE gives Eof; byte 0 = 0xFF gives Error; phase = Command gives
Command; otherwise Other. -/
theorem get_packet_type_first_match (b0 : Nat) (rest : List Nat) (phase : Phase) :
    get_packet_type (b0 :: rest) phase =
      some (if 7 ≤ (b0 :: rest).length ∧ b0 = 0x00 then PacketType.Ok
        else if (b0 :: rest).length ≤ 9 ∧ b0 = 0xfe then PacketType.Eof
        else if b0 = 0xff then PacketType.Error
        else if phase = Phase.Command then PacketType.Command
        else PacketType.Other) :=
  get_packet_type_cons b0 rest phase

/-- C4 counterexample. At the buffer [0, 0, 0, 9] (header size 0, sequence 9)
neither failure condition of the claim holds — the buffer is not shorter than
4 bytes nor shorter than 4 + header.size — yet frame does not succeed: the
classifier indexes the empty body out of bounds and the run panics (`none`).
This refutes the claim's "otherwise succeeds" arm as stated. -/
theorem frame_zero_size_counterexample :
    ¬ ([0, 0, 0, 9] : List Nat).length < 4 ∧
    ¬ ([0, 0, 0, 9] : List Nat).length <
        4 + (PacketHeader.from_bytes [0, 0, 0, 9]).size ∧
    Packet.from_bytes [0, 0, 0, 9] Phase.Initiated = none :=
  ⟨by decide, by decide, rfl⟩

/-- C4 (amended). frame fails at its IncompleteHeader return site exactly when
the buffer is shorter than 4 bytes; fails at its IncompleteBody return site
exactly when the buffer holds the header but fewer than header.size body
bytes; and otherwise, provided header.size > 0, succeeds with body equal to
exactly the header.size bytes following the header, trailing bytes left
unconsumed. (When header.size = 0 the classifier reads body[0] out of bounds
instead of succeeding — the empty-body defect.) -/
theorem frame_cases (bytes : List Nat) (phase : Phase) :
    (Packet.from_bytes bytes phase = some (Except.error FramingError.IncompleteHeader) ↔
      bytes.length < 4) ∧
    (Packet.from_bytes bytes phase = some (Except.error FramingError.IncompleteBody) ↔
      4 ≤ bytes.length ∧ bytes.length < 4 + (PacketHeader.from_bytes bytes).size) ∧
    (4 + (PacketHeader.from_bytes bytes).size ≤ bytes.length →
      0 < (PacketHeader.from_bytes bytes).size →
      ∃ p, Packet.from_bytes bytes phase = some (Except.ok p) ∧
        p.header = PacketHeader.from_bytes bytes ∧
        p.body = (bytes.drop 4).take (PacketHeader.from_bytes bytes).size) := by
  by_cases hlt : bytes.length < 4
  · refine ⟨?_, ?_, fun h1 h2 => ?_⟩
    · simp [Packet.from_bytes, hlt]
    · simp only [Packet.from_bytes, if_pos hlt]
      constructor
      · intro h
        exact absurd h (by simp)
      · intro h
        omega
    · omega
  · by_cases hb : bytes.length < 4 + (PacketHeader.from_bytes bytes).size
    · refine ⟨?_, ?_, fun h1 h2 => ?_⟩
      · simp only [Packet.from_bytes, if_neg hlt, if_pos hb]
        constructor
        · intro h
          exact absurd h (by simp)
        · intro h
          omega
      · simp only [Packet.from_bytes, if_neg hlt, if_pos hb]
        constructor
        · intro _
          omega
        · intro _
          trivial
      · omega
    · cases hg : get_packet_type ((bytes.drop 4).take (PacketHeader.from_bytes bytes).size)
          phase with
      | none =>
        refine ⟨?_, ?_, fun h1 h2 => ?_⟩
        · simp only [Packet.from_bytes, if_neg hlt, if_neg hb, hg]
          constructor
          · intro h
            exact absurd h (by simp)
          · intro h
            omega
        · simp only [Packet.from_bytes, if_neg hlt, if_neg hb, hg]
          constructor
          · intro h
            exact absurd h (by simp)
          · intro h
            omega
        · have hpos : 0 <
              ((bytes.drop 4).take (PacketHeader.from_bytes bytes).size).length := by
            simp only [List.length_take, List.length_drop]
            omega
          obtain ⟨t, ht⟩ :=
            get_packet_type_isSome _ phase (List.length_pos.mp hpos)
          rw [ht] at hg
          exact absurd hg (by simp)
      | some t =>
        refine ⟨?_, ?_, fun h1 h2 => ?_⟩
        · simp only [Packet.from_bytes, if_neg hlt, if_neg hb, hg]
          constructor
          · intro h
            exact absurd h (by simp)
          · intro h
            omega
        · simp only [Packet.from_bytes, if_neg hlt, if_neg hb, hg]
          constructor
          · intro h
            exact absurd h (by simp)
          · intro h
            omega
        · refine ⟨Packet.mk (PacketHeader.from_bytes bytes)
            ((bytes.drop 4).take (PacketHeader.from_bytes bytes).size) t, ?_, rfl, rfl⟩
          simp only [Packet.from_bytes, if_neg hlt, if_neg hb, hg]

/-- C4 witness: the success arm evaluated on the concrete 5-byte buffer
declaring a 1-byte body. -/
theorem frame_cases_witness :
    ∃ p, Packet.from_bytes [1, 0, 0, 0, 0xFF] Phase.AuthDone = some (Except.ok p) ∧
      p.header = PacketHeader.from_bytes [1, 0, 0, 0, 0xFF] ∧
      p.body = (([1, 0, 0, 0, 0xFF] : List Nat).drop 4).take
        (PacketHeader.from_bytes [1, 0, 0, 0, 0xFF]).size :=
  (frame_cases [1, 0, 0, 0, 0xFF] Phase.AuthDone).2.2 (by decide) (by decide)

/-- C3 counterexample. An Error-typed packet with an 11-byte body decoded with
capability flags 0 (ClientProtocol41 unset): the code returns error_message
[20, 21] — the remainder after offset 9 — not the remainder after the 1-byte
marker and the 2-byte error code (offset 3), because the cursor advances 6
SQL-state bytes even though none were decoded. -/
theorem decode_error_message_offset_counterexample :
    ErrorData.from_packet
        ⟨⟨11, 0⟩, [0xFF, 1, 0, 10, 11, 12, 13, 14, 15, 20, 21], PacketType.Error⟩ 0 =
      some { error_code := 511, sql_state := none, error_message := [20, 21] } ∧
    ([20, 21] : List Nat) ≠
      List.drop 3 [0xFF, 1, 0, 10, 11, 12, 13, 14, 15, 20, 21] :=
  ⟨rfl, by decide⟩

/-- C3 (amended). For every Error-typed packet whose body holds at least 9
bytes: when ClientProtocol41 is unset, sql_state is None but the cursor still
advances 6 bytes past the error code, so error_message is the remainder of the
body from offset 9; when ClientProtocol41 is set, sql_state is the 6 bytes at
offsets 3..9 (1-byte marker then 5-byte state) and error_message is again the
remainder from offset 9. (The error code itself is decoded from the body's
first two bytes, marker included, reduced to a u16.) -/
theorem decode_error_spec (hdr : PacketHeader) (body : List Nat) (client_flag : Nat)
    (hlen : 9 ≤ body.length) :
    ErrorData.from_packet ⟨hdr, body, PacketType.Error⟩ client_flag =
      some { error_code := leValue (body.take 2) % 65536
           , sql_state :=
               if client_flag &&& ClientProtocol41 = 0 then none
               else some { state_marker := (body.drop 3).take 1
                         , state := (body.drop 4).take 5 }
           , error_message := body.drop 9 } := by
  have h2 : ¬ body.length < 2 := by omega
  have h3 : ¬ body.length < 3 := by omega
  have h4 : ¬ body.length < 4 := by omega
  have h9 : ¬ body.length < 9 := by omega
  have hs1 : ¬ (body.drop 3).length < 1 := by
    rw [List.length_drop]
    omega
  have hs5 : ¬ (body.drop 4).length < 5 := by
    rw [List.length_drop]
    omega
  have hfin : 9 + (body.length - 9) = body.length := by omega
  have hA : ¬ body.length - 3 = 0 := by omega
  have hB : ¬ body.length - 4 < 5 := by omega
  by_cases hflag : client_flag &&& ClientProtocol41 = 0
  · simp [ErrorData.from_packet, IntFixedLen.from_bytes, get_sql_state,
      StringEOFEnc.from_bytes, h2, h9, hflag, hfin]
  · simp [ErrorData.from_packet, IntFixedLen.from_bytes, get_sql_state,
      StringFixedLen.from_bytes, StringEOFEnc.from_bytes, h2, h3, h4, h9,
      hs1, hs5, hflag, hfin, hA, hB]

/-- C3 witness: the spec's section-8 vector (body 0xFF, code bytes 0x84 0x04,
then "44000Unk") decoded with ClientProtocol41 set: sql_state holds marker "4"
and state "4000U", error_message is "nk". The error code is 34047 = 0x84FF,
the little-endian read of the body's first two bytes. -/
theorem decode_error_spec_witness :
    ErrorData.from_packet
        ⟨⟨11, 0⟩, [0xFF, 0x84, 0x04, 52, 52, 48, 48, 48, 85, 110, 107],
          PacketType.Error⟩ 0x200 =
      some { error_code := 34047
           , sql_state := some { state_marker := [52], state := [52, 48, 48, 48, 85] }
           , error_message := [110, 107] } :=
  (decode_error_spec ⟨11, 0⟩ [0xFF, 0x84, 0x04, 52, 52, 48, 48, 48, 85, 110, 107]
      0x200 (by decide)).trans (by decide)

/-- C5. The claim: decode_ok and decode_error return TypeMismatch /
MalformedPacket error results instead of aborting. The code instead guards the
packet type with `assert_eq!` and returns plain OkData / ErrorData (no error
variant exists); a type mismatch aborts the process, modelled as `none`. This
theorem evaluates both decoders at type-mismatched inputs. -/
theorem decoders_assert_on_type_mismatch :
    OkData.from_packet ⟨⟨1, 0⟩, [0xFF], PacketType.Error⟩ 0 = none ∧
    ErrorData.from_packet ⟨⟨7, 0⟩, [0, 0, 0, 0, 0, 0, 0], PacketType.Ok⟩ 0 = none := by
  exact ⟨rfl, rfl⟩

/-- C6. For every Ok-typed packet whose body parses two length-encoded
integers (affected_rows at offset 1, last_insert_id after it): with
ClientProtocol41 set, status_flags and warnings are the two 2-byte
little-endian integers that follow; with ClientProtocol41 unset but
ClientTransactions set, only status_flags is read and warnings is None; with
neither set, both are None. info and session_state_info are None in every
case, whatever the ClientSessionTrack bit. -/
theorem decode_ok_capability_gating (hdr : PacketHeader) (body : List Nat)
    (client_flag : Nat) (r1 r2 : LenEncResult)
    (h1 : IntLenEnc.from_bytes (body.drop 1) = some r1)
    (h2 : IntLenEnc.from_bytes (body.drop (1 + r1.offset_increment)) = some r2) :
    (client_flag &&& ClientProtocol41 ≠ 0 →
      1 + r1.offset_increment + r2.offset_increment + 4 ≤ body.length →
      OkData.from_packet ⟨hdr, body, PacketType.Ok⟩ client_flag =
        some { affected_rows := r1.result, last_insert_id := r2.result
             , status_flags := some (leValue
                 ((body.drop (1 + r1.offset_increment + r2.offset_increment)).take 2)
                 % 65536)
             , warnings := some (leValue
                 ((body.drop (1 + r1.offset_increment + r2.offset_increment + 2)).take 2)
                 % 65536)
             , info := none, session_state_info := none }) ∧
    (client_flag &&& ClientProtocol41 = 0 → client_flag &&& ClientTransactions ≠ 0 →
      1 + r1.offset_increment + r2.offset_increment + 2 ≤ body.length →
      OkData.from_packet ⟨hdr, body, PacketType.Ok⟩ client_flag =
        some { affected_rows := r1.result, last_insert_id := r2.result
             , status_flags := some (leValue
                 ((body.drop (1 + r1.offset_increment + r2.offset_increment)).take 2)
                 % 65536)
             , warnings := none, info := none, session_state_info := none }) ∧
    (client_flag &&& ClientProtocol41 = 0 → client_flag &&& ClientTransactions = 0 →
      OkData.from_packet ⟨hdr, body, PacketType.Ok⟩ client_flag =
        some { affected_rows := r1.result, last_insert_id := r2.result
             , status_flags := none, warnings := none
             , info := none, session_state_info := none }) := by
  have hne1 : body.drop 1 ≠ [] := lenEnc_some_ne_nil h1
  have hne2 : body.drop (1 + r1.offset_increment) ≠ [] := lenEnc_some_ne_nil h2
  have hl1 : 1 < body.length := by
    have := List.length_pos.mpr hne1
    rw [List.length_drop] at this
    omega
  have hl2 : 1 + r1.offset_increment < body.length := by
    have := List.length_pos.mpr hne2
    rw [List.length_drop] at this
    omega
  have c1 : ¬ body.length < 1 := by omega
  have c2 : ¬ body.length < 1 + r1.offset_increment := by omega
  have h1t : IntLenEnc.from_bytes body.tail = some r1 := by
    rw [← List.drop_one]
    exact h1
  refine ⟨fun hp hlen => ?_, fun hp ht hlen => ?_, fun hp ht => ?_⟩
  · have c3 : ¬ body.length < 1 + r1.offset_increment + r2.offset_increment := by
      omega
    have c4 : ¬ body.length - (1 + r1.offset_increment + r2.offset_increment) < 2 := by
      omega
    have c5 : ¬ body.length < 1 + r1.offset_increment + r2.offset_increment + 2 := by
      omega
    have c6 : ¬ body.length - (1 + r1.offset_increment + r2.offset_increment + 2) < 2 := by
      omega
    simp [OkData.from_packet, IntFixedLen.from_bytes, h1t, h2, hp,
      c1, c2, c3, c4, c5, c6]
  · have c3 : ¬ body.length < 1 + r1.offset_increment + r2.offset_increment := by
      omega
    have c4 : ¬ body.length - (1 + r1.offset_increment + r2.offset_increment) < 2 := by
      omega
    simp [OkData.from_packet, IntFixedLen.from_bytes, h1t, h2, hp, ht,
      c1, c2, c3, c4]
  · simp [OkData.from_packet, h1t, h2, hp, ht, c1, c2]

/-- C6 witness: the concrete Ok body [0x00, 3, 0, 7, 0, 2, 0] decoded with
client_flag 0x200 (ClientProtocol41): affected_rows 3, last_insert_id 0,
status_flags 7, warnings 2, info and session_state_info absent. -/
theorem decode_ok_capability_gating_witness :
    OkData.from_packet ⟨⟨7, 0⟩, [0x00, 3, 0, 7, 0, 2, 0], PacketType.Ok⟩ 0x200 =
      some { affected_rows := 3, last_insert_id := 0, status_flags := some 7
           , warnings := some 2, info := none, session_state_info := none } :=
  ((decode_ok_capability_gating ⟨7, 0⟩ [0x00, 3, 0, 7, 0, 2, 0] 0x200
      { result := 3, isNull := false, offset_increment := 1 }
      { result := 0, isNull := false, offset_increment := 1 }
      (by decide) (by decide)).1 (by decide) (by decide)).trans (by decide)

/-- C7. Decoding the encoding of a header returns the size reduced mod 2^24
with the sequence number preserved; in particular the round trip is the
identity whenever size < 2^24. -/
theorem header_roundtrip (h : PacketHeader) (hseq : h.seq < 256) :
    PacketHeader.from_bytes (PacketHeader.to_bytes h) =
      { size := h.size % 2 ^ 24, seq := h.seq } ∧
    (h.size < 2 ^ 24 → PacketHeader.from_bytes (PacketHeader.to_bytes h) = h) := by
  obtain ⟨s, q⟩ := h
  have hd1 : s / 256 / 256 = s / 65536 := by
    rw [Nat.div_div_eq_div_mul]
  have hd2 : s / 65536 / 256 = s / 16777216 := by
    rw [Nat.div_div_eq_div_mul]
  have hmain : PacketHeader.from_bytes (PacketHeader.to_bytes ⟨s, q⟩) =
      { size := s % 2 ^ 24, seq := q } := by
    simp only [PacketHeader.to_bytes, PacketHeader.from_bytes, leValue, List.take,
      List.getD, PacketHeader.mk.injEq]
    exact ⟨by omega, rfl⟩
  refine ⟨hmain, fun hs => ?_⟩
  rw [hmain]
  simp only [PacketHeader.mk.injEq]
  exact ⟨Nat.mod_eq_of_lt hs, trivial⟩

/-- C7 witness: the round trip evaluated on the concrete header
(size 19088743 = 0x1234567, seq 5): the decoded size is 19088743 mod 2^24. -/
theorem header_roundtrip_witness :
    (5 : Nat) < 256 ∧
    PacketHeader.from_bytes (PacketHeader.to_bytes ⟨19088743, 5⟩) =
      { size := 2311527, seq := 5 } :=
  ⟨by decide, ((header_roundtrip ⟨19088743, 5⟩ (by decide)).1).trans (by decide)⟩

/-- C8. The length-encoded-integer decoder covers all five leading-byte cases:
b < 0xFB gives the value b consuming 1 byte; 0xFB is the NULL sentinel
consuming 1; 0xFC gives the next 2 bytes little-endian consuming 3; 0xFD the
next 3 consuming 4; 0xFE the next 8 consuming 9. -/
theorem len_enc_int_cases (b : Nat) (rest : List Nat) :
    (b < 0xFB → IntLenEnc.from_bytes (b :: rest) =
        some { result := b, isNull := false, offset_increment := 1 }) ∧
    (IntLenEnc.from_bytes (0xFB :: rest) =
        some { result := 0, isNull := true, offset_increment := 1 }) ∧
    (2 ≤ rest.length → IntLenEnc.from_bytes (0xFC :: rest) =
        some { result := leValue (rest.take 2), isNull := false, offset_increment := 3 }) ∧
    (3 ≤ rest.length → IntLenEnc.from_bytes (0xFD :: rest) =
        some { result := leValue (rest.take 3), isNull := false, offset_increment := 4 }) ∧
    (8 ≤ rest.length → IntLenEnc.from_bytes (0xFE :: rest) =
        some { result := leValue (rest.take 8), isNull := false, offset_increment := 9 }) := by
  refine ⟨fun hb => ?_, ?_, fun h2 => ?_, fun h3 => ?_, fun h8 => ?_⟩ <;>
    simp only [IntLenEnc.from_bytes] <;> split_ifs <;> first | rfl | omega

/-- C8 witness: the spec's own vector [0xFC, 0x10, 0x00] decodes to value 16
consuming 3 bytes. -/
theorem len_enc_int_cases_witness :
    IntLenEnc.from_bytes [0xFC, 0x10, 0x00] =
      some { result := 16, isNull := false, offset_increment := 3 } :=
  ((len_enc_int_cases 0xFC [0x10, 0x00]).2.2.1 (by decide)).trans (by decide)

/-- C9. A fresh Connection starts in Initiated; mark_auth_done moves any
connection to AuthDone; and no Connection operation returns the state to
Initiated once it has left that state. -/
theorem connection_phase_transitions (op : ConnectionOp) (c : Connection)
    (h : c.state ≠ State.Initiated) :
    Connection.new.state = State.Initiated ∧
    (Connection.mark_auth_done c).state = State.AuthDone ∧
    (op.apply c).state ≠ State.Initiated := by
  refine ⟨rfl, rfl, ?_⟩
  cases op with
  | markAuthDone => simp [ConnectionOp.apply, Connection.mark_auth_done]
  | unsetPartialData => exact h
  | setPartialData bytes => exact h

/-- C9 witness: the transitions evaluated on the concrete connection in state
AuthDone under the markAuthDone operation. -/
theorem connection_phase_transitions_witness :
    Connection.new.state = State.Initiated ∧
    (Connection.mark_auth_done ⟨State.AuthDone, none, none⟩).state = State.AuthDone ∧
    (ConnectionOp.markAuthDone.apply ⟨State.AuthDone, none, none⟩).state ≠ State.Initiated :=
  connection_phase_transitions ConnectionOp.markAuthDone
    ⟨State.AuthDone, none, none⟩ (by decide)

/-- C10. set_partial_data stores an exact copy of the given bytes and leaves
state and last_command unchanged; unset_partial_data sets partial_data to None
and likewise leaves state and last_command unchanged. -/
theorem partial_data_frame_effect (c : Connection) (bytes : List Nat) :
    (c.set_partial_data bytes).partial_data = some bytes ∧
    (c.set_partial_data bytes).state = c.state ∧
    (c.set_partial_data bytes).last_command = c.last_command ∧
    c.unset_partial_data.partial_data = none ∧
    c.unset_partial_data.state = c.state ∧
    c.unset_partial_data.last_command = c.last_command :=
  ⟨rfl, rfl, rfl, rfl, rfl, rfl⟩

end MuxySQL
